import Mathlib

/-
Verification development for the CMTI-CAD-analyser repository.

The repository contains two command-line converters:
  * step_to_glb_converter.py : STEP → GLB via a chain of three backend
    strategies (in-process FreeCAD, CadQuery, FreeCAD command line), each
    producing an intermediate STL temp file that is re-exported to GLB by
    trimesh.
  * stl_to_glb_converter.py  : STL → GLB via a single trimesh load/export.

The embedding below models the filesystem as an association list from path
to file size (the code only observes existence and size), and models every
call into an external capability (FreeCAD, CadQuery, trimesh, subprocess)
as an oracle outcome supplied by an environment record.  Python exceptions
are modelled with an explicit `Except` result carrying the error class and
the filesystem state at the point of the raise; `try/except` blocks of the
source become explicit matches on that result.  `os.remove` inside the
best-effort cleanup blocks is modelled as succeeding (the filesystem model
has no I/O faults); the bare `except: pass` around it is therefore the
identity.  Console printing has no observable effect and is not modelled.
-/

/-- Filesystem state: association list mapping a path to the size in bytes
of the file stored there.  The converters observe only existence
(`os.path.exists`) and size (`os.path.getsize`). -/
abbrev FS := List (String × Nat)

/-- Model of `os.path.exists`. -/
def FS.hasFile (fs : FS) (p : String) : Bool := fs.any (fun e => e.1 == p)

/-- Model of `os.path.getsize` (0 for a missing file; the code only calls it
guarded by an existence check or on files it just created). -/
def FS.getsize (fs : FS) (p : String) : Nat :=
  match fs.find? (fun e => e.1 == p) with
  | some e => e.2
  | none => 0

/-- Create or overwrite the file at `p` with `n` bytes. -/
def FS.write (fs : FS) (p : String) (n : Nat) : FS :=
  (p, n) :: fs.filter (fun e => e.1 != p)

/-- Model of `os.remove`. -/
def FS.remove (fs : FS) (p : String) : FS := fs.filter (fun e => e.1 != p)

theorem FS.hasFile_write (fs : FS) (p q : String) (n : Nat) :
    (fs.write p n).hasFile q = true ↔ (p = q ∨ fs.hasFile q = true) := by
  simp only [FS.write, FS.hasFile, List.any_eq_true, List.mem_cons, List.mem_filter,
    beq_iff_eq, bne_iff_ne]
  constructor
  · rintro ⟨e, he, hq⟩
    rcases he with h | ⟨hm, hne⟩
    · left; rw [h] at hq; exact hq
    · right; exact ⟨e, hm, hq⟩
  · rintro (h | ⟨e, hm, hq⟩)
    · exact ⟨(p, n), Or.inl rfl, h⟩
    · by_cases hpq : p = q
      · exact ⟨(p, n), Or.inl rfl, hpq⟩
      · exact ⟨e, Or.inr ⟨hm, fun hc => hpq (by rw [← hc, hq])⟩, hq⟩

theorem FS.hasFile_remove (fs : FS) (p q : String) :
    (fs.remove p).hasFile q = true ↔ (p ≠ q ∧ fs.hasFile q = true) := by
  simp only [FS.remove, FS.hasFile, List.any_eq_true, List.mem_filter, beq_iff_eq, bne_iff_ne]
  constructor
  · rintro ⟨e, ⟨hm, hne⟩, hq⟩
    exact ⟨fun hc => hne (by rw [hq, hc]), e, hm, hq⟩
  · rintro ⟨hpq, e, hm, hq⟩
    exact ⟨e, ⟨hm, fun hc => hpq (by rw [← hq, hc])⟩, hq⟩

/-- Python exception classes occurring in the two scripts.  All of them are
subclasses of `Exception` in Python's class hierarchy. -/
inductive PyErr
  | importError
  | fileNotFoundError
  | timeoutExpired
  | exception
deriving DecidableEq, Repr

/-- Every modelled error class is caught by `except Exception`. -/
def PyErr.isException : PyErr → Bool := fun _ => true

/-- Only `ImportError` is caught by `except ImportError`. -/
def PyErr.isImportError : PyErr → Bool
  | .importError => true
  | _ => false

/-- Outcome of a `mesh.export(target, file_type='glb')` call on the external
mesh library: it may succeed writing `size` bytes, raise after having
written `size` bytes at the target path, or raise before creating
the target file. -/
inductive ExportOut
  | ok (size : Nat)
  | raisedAfterWrite (size : Nat)
  | raisedClean
deriving DecidableEq, Repr

/-- Result type of a Python function call: either a normal return carrying
the return value and the filesystem afterwards, or a propagating exception
carrying the error class and the filesystem at the raise point. -/
abbrev PyResult (α : Type) := Except (PyErr × FS) (α × FS)

/-- Environment (oracle) for `convert_step_to_glb_freecad`: the behaviour of
each external capability call the function makes, in source order. -/
structure FreecadEnv where
  importOk : Bool
  tempStl : String
  insertOk : Bool
  meshExport : Except Unit Nat
  trimeshOk : Bool
  loadOk : Nat → Bool
  glbExport : ExportOut

/-- Body of `convert_step_to_glb_freecad` (lines 15–70): everything inside
the outer `try`.  The `sys.path` probing (lines 19–28) has no modelled
effect; `Import.insert` plus the `ActiveDocument` fallback (lines 44–49) is
one CAD-kernel interaction with no filesystem effect, collapsed to the
oracle `insertOk`. -/
def freecad_body (env : FreecadEnv) (step_file glb_file : String) (fs : FS) :
    PyResult Bool :=
  if ¬ env.importOk then .error (.importError, fs)
  else
    let stl_path := env.tempStl
    let fs1 := fs.write stl_path 0
    if ¬ env.insertOk then .error (.exception, fs1)
    else match env.meshExport with
    | .error _ => .error (.exception, fs1)
    | .ok n =>
      let fs2 := fs1.write stl_path n
      if ¬ env.trimeshOk then .error (.importError, fs2)
      else if ¬ env.loadOk n then .error (.exception, fs2)
      else match env.glbExport with
      | .raisedClean => .error (.exception, fs2)
      | .raisedAfterWrite m => .error (.exception, fs2.write glb_file m)
      | .ok m =>
        let fs3 := fs2.write glb_file m
        let fs4 := fs3.remove stl_path
        .ok (true, fs4)

/-- `convert_step_to_glb_freecad` (lines 13–77): the body wrapped by the
handlers `except ImportError` (72–74) and `except Exception` (75–77), both
of which return `False`. -/
def convert_step_to_glb_freecad (env : FreecadEnv) (step_file glb_file : String)
    (fs : FS) : PyResult Bool :=
  match freecad_body env step_file glb_file fs with
  | .ok r => .ok r
  | .error (e, fs') =>
    if e.isImportError then .ok (false, fs')
    else if e.isException then .ok (false, fs')
    else .error (e, fs')

/-- Environment for `convert_step_to_glb_cadquery`. -/
structure CadqueryEnv where
  importOk : Bool
  tempStl : String
  importStepOk : Bool
  exportStl : Except Unit Nat
  loadOk : Nat → Bool
  glbExport : ExportOut

/-- Body of `convert_step_to_glb_cadquery` (lines 81–111): the imports of
cadquery and trimesh (83–84), temp STL creation (89–91), STEP import (96),
STL export (97), trimesh load (101), GLB export (102), and the success-path
cleanup (105–108). -/
def cadquery_body (env : CadqueryEnv) (step_file glb_file : String) (fs : FS) :
    PyResult Bool :=
  if ¬ env.importOk then .error (.importError, fs)
  else
    let stl_path := env.tempStl
    let fs1 := fs.write stl_path 0
    if ¬ env.importStepOk then .error (.exception, fs1)
    else match env.exportStl with
    | .error _ => .error (.exception, fs1)
    | .ok n =>
      let fs2 := fs1.write stl_path n
      if ¬ env.loadOk n then .error (.exception, fs2)
      else match env.glbExport with
      | .raisedClean => .error (.exception, fs2)
      | .raisedAfterWrite m => .error (.exception, fs2.write glb_file m)
      | .ok m =>
        let fs3 := fs2.write glb_file m
        let fs4 := fs3.remove stl_path
        .ok (true, fs4)

/-- `convert_step_to_glb_cadquery` (lines 79–118) with its two handlers
(113–118), both returning `False`. -/
def convert_step_to_glb_cadquery (env : CadqueryEnv) (step_file glb_file : String)
    (fs : FS) : PyResult Bool :=
  match cadquery_body env step_file glb_file fs with
  | .ok r => .ok r
  | .error (e, fs') =>
    if e.isImportError then .ok (false, fs')
    else if e.isException then .ok (false, fs')
    else .error (e, fs')

/-- Outcome of one `subprocess.run([cmd, script], ..., timeout=120)` call
(lines 164–169): the executable may be missing (`FileNotFoundError`), the
timeout may expire (the child may have written the STL before being
killed), or the process may complete with a return code, optionally having
written the STL through the conversion script. -/
inductive CmdOut
  | notFound
  | timeout (stlWrite : Option Nat)
  | ran (returncode : Int) (stlWrite : Option Nat)
deriving DecidableEq, Repr

/-- Apply an optional write by the subprocess to the temp STL path. -/
def optWrite (fs : FS) (p : String) (w : Option Nat) : FS :=
  match w with
  | some n => fs.write p n
  | none => fs

/-- Environment for `convert_step_to_glb_cli`.  `run b i` is the outcome of
invoking command number `i` of `freecad_commands` with timeout budget `b`;
`loadOk i n` is the outcome of `trimesh.load` on an STL of `n` bytes during
attempt `i`; `glbExport i` the outcome of the GLB export during attempt
`i`. -/
structure CliEnv where
  importOk : Bool
  tempStl : String
  tempScript : String
  run : Nat → Nat → CmdOut
  loadOk : Nat → Nat → Bool
  glbExport : Nat → ExportOut

/-- The `timeout=120` argument of `subprocess.run` (line 167). -/
def cliTimeout : Nat := 120

/-- The candidate FreeCAD command names probed in order (lines 154–159). -/
def freecad_commands : List String :=
  ["freecadcmd", "FreeCADCmd", "/Applications/FreeCAD.app/Contents/MacOS/FreeCAD", "freecad"]

/-- The `for cmd in freecad_commands` loop (lines 161–187), iterating over
the remaining command indices.  Each iteration's exceptions are caught by
the per-command handlers (181–187: `FileNotFoundError`, `TimeoutExpired`,
`Exception`, all of which `continue`), so the loop itself never raises.
Success requires `returncode == 0`, the STL to exist and to be non-empty
(line 171); on success the GLB export runs and `break` leaves the loop. -/
def cli_loop (env : CliEnv) (glb_file stl_path : String) :
    List Nat → FS → Bool × FS
  | [], fs => (false, fs)
  | i :: rest, fs =>
    match env.run cliTimeout i with
    | .notFound => cli_loop env glb_file stl_path rest fs
    | .timeout w => cli_loop env glb_file stl_path rest (optWrite fs stl_path w)
    | .ran rc w =>
      let fs' := optWrite fs stl_path w
      if rc == 0 && fs'.hasFile stl_path && decide (0 < fs'.getsize stl_path) then
        if ¬ env.loadOk i (fs'.getsize stl_path) then
          cli_loop env glb_file stl_path rest fs'
        else match env.glbExport i with
        | .ok m => (true, fs'.write glb_file m)
        | .raisedAfterWrite m => cli_loop env glb_file stl_path rest (fs'.write glb_file m)
        | .raisedClean => cli_loop env glb_file stl_path rest fs'
      else cli_loop env glb_file stl_path rest fs'

/-- Body of `convert_step_to_glb_cli` (lines 122–201): imports (124–125),
temp STL creation (128–130), script-file creation (146–149; its size is
immaterial, recorded as 0), the command loop, the unconditional cleanup of
both temp files (190–194), and the final return of the loop's success
flag (196–201). -/
def cli_body (env : CliEnv) (step_file glb_file : String) (fs : FS) :
    PyResult Bool :=
  if ¬ env.importOk then .error (.importError, fs)
  else
    let stl_path := env.tempStl
    let fs1 := fs.write stl_path 0
    let script_path := env.tempScript
    let fs2 := fs1.write script_path 0
    let r := cli_loop env glb_file stl_path (List.range freecad_commands.length) fs2
    let fs3 := (r.2.remove stl_path).remove script_path
    .ok (r.1, fs3)

/-- `convert_step_to_glb_cli` (lines 120–205) with its single
`except Exception` handler (203–205) returning `False` (it also catches the
`ImportError` of line 124–125, since `ImportError` subclasses
`Exception`). -/
def convert_step_to_glb_cli (env : CliEnv) (step_file glb_file : String)
    (fs : FS) : PyResult Bool :=
  match cli_body env step_file glb_file fs with
  | .ok r => .ok r
  | .error (e, fs') =>
    if e.isException then .ok (false, fs')
    else .error (e, fs')

/-- Model of Python `str.lower` on one character, for the ASCII range the
extension check exercises. -/
def pyCharLower (c : Char) : Char :=
  if 65 ≤ c.toNat ∧ c.toNat ≤ 90 then Char.ofNat (c.toNat + 32) else c

/-- Model of Python `str.lower`. -/
def pyLower (s : String) : String := ⟨s.data.map pyCharLower⟩

/-- Model of Python `str.endswith` for a single candidate ending. -/
def pyEndsWith (s suff : String) : Bool :=
  suff.data == s.data.drop (s.data.length - suff.data.length)

/-- Line 258: `step_file.lower().endswith(('.step', '.stp'))`. -/
def step_extension_ok (step_file : String) : Bool :=
  pyEndsWith (pyLower step_file) ".step" || pyEndsWith (pyLower step_file) ".stp"

/-- The three backend strategies of the STEP converter, in source order. -/
inductive Strat
  | freecad
  | cadquery
  | cli
deriving DecidableEq, Repr

/-- Environment for the STEP converter's `main`: one environment per
strategy. -/
structure StepEnv where
  fc : FreecadEnv
  cq : CadqueryEnv
  cl : CliEnv

/-- `main` of step_to_glb_converter.py (lines 244–308).  Returns the process
exit code (0 for the fall-through success return, 1 for every `sys.exit(1)`),
the final filesystem, and — as an observation of the control flow — the
list of strategies invoked, in invocation order.  The argument-count check
(245–247), existence check (252–255) and extension check (257–260) all exit
before any strategy runs; then the `if not success` chain (271–284) runs
the strategies in order, and line 286–297 exits 1 when all failed. -/
def step_main (env : StepEnv) (argc : Nat) (step_file glb_file : String) (fs : FS) :
    Except (PyErr × FS) (Nat × FS × List Strat) :=
  if argc ≠ 3 then .ok (1, fs, [])
  else if ¬ fs.hasFile step_file then .ok (1, fs, [])
  else if ¬ step_extension_ok step_file then .ok (1, fs, [])
  else
    match convert_step_to_glb_freecad env.fc step_file glb_file fs with
    | .error (e, fs') => .error (e, fs')
    | .ok (s1, fs1) =>
      if s1 then .ok (0, fs1, [Strat.freecad])
      else match convert_step_to_glb_cadquery env.cq step_file glb_file fs1 with
      | .error (e, fs') => .error (e, fs')
      | .ok (s2, fs2) =>
        if s2 then .ok (0, fs2, [Strat.freecad, Strat.cadquery])
        else match convert_step_to_glb_cli env.cl step_file glb_file fs2 with
        | .error (e, fs') => .error (e, fs')
        | .ok (s3, fs3) =>
          if s3 then .ok (0, fs3, [Strat.freecad, Strat.cadquery, Strat.cli])
          else .ok (1, fs3, [Strat.freecad, Strat.cadquery, Strat.cli])

/-- Environment for `convert_stl_to_glb`: the trimesh import (line 15), the
mesh load (line 18) and the GLB export (line 24). -/
structure StlEnv where
  trimeshOk : Bool
  loadOk : Bool
  glbExport : ExportOut

/-- Body of `convert_stl_to_glb` (lines 14–27). -/
def stl_body (env : StlEnv) (stl_file glb_file : String) (fs : FS) :
    PyResult Bool :=
  if ¬ env.trimeshOk then .error (.importError, fs)
  else if ¬ env.loadOk then .error (.exception, fs)
  else match env.glbExport with
  | .ok m => .ok (true, fs.write glb_file m)
  | .raisedAfterWrite m => .error (.exception, fs.write glb_file m)
  | .raisedClean => .error (.exception, fs)

/-- `convert_stl_to_glb` (lines 12–35) with its handlers `except ImportError`
(29–32) and `except Exception` (33–35), both returning `False`. -/
def convert_stl_to_glb (env : StlEnv) (stl_file glb_file : String) (fs : FS) :
    PyResult Bool :=
  match stl_body env stl_file glb_file fs with
  | .ok r => .ok r
  | .error (e, fs') =>
    if e.isImportError then .ok (false, fs')
    else if e.isException then .ok (false, fs')
    else .error (e, fs')

/-- `main` of stl_to_glb_converter.py (lines 37–76).  Returns the exit code,
the final filesystem, and a flag recording whether `convert_stl_to_glb` was
invoked.  The argument-count check (38–53) and the existence check (58–60)
exit first; there is no extension check, and `convert_stl_to_glb` is then
invoked (line 70), with exit code 0 on `True` and 1 on `False`. -/
def stl_main (env : StlEnv) (argc : Nat) (stl_file glb_file : String) (fs : FS) :
    Except (PyErr × FS) (Nat × FS × Bool) :=
  if argc ≠ 3 then .ok (1, fs, false)
  else if ¬ fs.hasFile stl_file then .ok (1, fs, false)
  else
    match convert_stl_to_glb env stl_file glb_file fs with
    | .error (e, fs') => .error (e, fs')
    | .ok (true, fs') => .ok (0, fs', true)
    | .ok (false, fs') => .ok (1, fs', true)

theorem FS.hasFile_write_of_not (fs : FS) (p q : String) (n : Nat)
    (hpq : p ≠ q) (h : fs.hasFile q = false) :
    (fs.write p n).hasFile q = false := by
  cases hq : (fs.write p n).hasFile q with
  | false => rfl
  | true =>
    rcases (FS.hasFile_write fs p q n).mp hq with hc | hc
    · exact absurd hc hpq
    · rw [h] at hc; exact Bool.noConfusion hc

theorem FS.hasFile_remove_self (fs : FS) (p : String) :
    (fs.remove p).hasFile p = false := by
  cases h : (fs.remove p).hasFile p with
  | false => rfl
  | true => exact (((FS.hasFile_remove fs p p).mp h).1 rfl).elim

theorem FS.hasFile_remove_of_not (fs : FS) (p q : String) (h : fs.hasFile q = false) :
    (fs.remove p).hasFile q = false := by
  cases hq : (fs.remove p).hasFile q with
  | false => rfl
  | true =>
    have hc := ((FS.hasFile_remove fs p q).mp hq).2
    rw [h] at hc; exact Bool.noConfusion hc

theorem optWrite_hasFile_of_not (fs : FS) (p q : String) (w : Option Nat)
    (hpq : p ≠ q) (h : fs.hasFile q = false) :
    (optWrite fs p w).hasFile q = false := by
  cases w with
  | none => exact h
  | some n => exact FS.hasFile_write_of_not fs p q n hpq h

theorem convert_freecad_returns (env : FreecadEnv) (s g : String) (fs : FS) :
    ∃ b fs', convert_step_to_glb_freecad env s g fs = .ok (b, fs') := by
  cases hb : freecad_body env s g fs with
  | ok r => exact ⟨r.1, r.2, by simp [convert_step_to_glb_freecad, hb]⟩
  | error p =>
    obtain ⟨e, f⟩ := p
    refine ⟨false, f, ?_⟩
    cases e <;> simp [convert_step_to_glb_freecad, hb, PyErr.isImportError, PyErr.isException]

theorem convert_cadquery_returns (env : CadqueryEnv) (s g : String) (fs : FS) :
    ∃ b fs', convert_step_to_glb_cadquery env s g fs = .ok (b, fs') := by
  cases hb : cadquery_body env s g fs with
  | ok r => exact ⟨r.1, r.2, by simp [convert_step_to_glb_cadquery, hb]⟩
  | error p =>
    obtain ⟨e, f⟩ := p
    refine ⟨false, f, ?_⟩
    cases e <;> simp [convert_step_to_glb_cadquery, hb, PyErr.isImportError, PyErr.isException]

theorem convert_cli_returns (env : CliEnv) (s g : String) (fs : FS) :
    ∃ b fs', convert_step_to_glb_cli env s g fs = .ok (b, fs') := by
  cases hb : cli_body env s g fs with
  | ok r => exact ⟨r.1, r.2, by simp [convert_step_to_glb_cli, hb]⟩
  | error p =>
    obtain ⟨e, f⟩ := p
    refine ⟨false, f, ?_⟩
    cases e <;> simp [convert_step_to_glb_cli, hb, PyErr.isException]

theorem convert_stl_returns (env : StlEnv) (s g : String) (fs : FS) :
    ∃ b fs', convert_stl_to_glb env s g fs = .ok (b, fs') := by
  cases hb : stl_body env s g fs with
  | ok r => exact ⟨r.1, r.2, by simp [convert_stl_to_glb, hb]⟩
  | error p =>
    obtain ⟨e, f⟩ := p
    refine ⟨false, f, ?_⟩
    cases e <;> simp [convert_stl_to_glb, hb, PyErr.isImportError, PyErr.isException]


theorem freecad_body_no_target (env : FreecadEnv) (s g : String) (fs : FS)
    (hg : env.glbExport = .raisedClean) (ht : env.tempStl ≠ g) (h0 : fs.hasFile g = false) :
    ∃ e fsE, freecad_body env s g fs = .error (e, fsE) ∧ fsE.hasFile g = false := by
  have h1 : (fs.write env.tempStl 0).hasFile g = false :=
    FS.hasFile_write_of_not fs env.tempStl g 0 ht h0
  have h2 : ∀ n, ((fs.write env.tempStl 0).write env.tempStl n).hasFile g = false :=
    fun n => FS.hasFile_write_of_not _ env.tempStl g n ht h1
  cases hi : env.importOk with
  | false => exact ⟨.importError, fs, by simp [freecad_body, hi], h0⟩
  | true =>
    cases hin : env.insertOk with
    | false => exact ⟨.exception, fs.write env.tempStl 0, by simp [freecad_body, hi, hin], h1⟩
    | true =>
      cases hm : env.meshExport with
      | error u =>
        exact ⟨.exception, fs.write env.tempStl 0, by simp [freecad_body, hi, hin, hm], h1⟩
      | ok n =>
        cases htm : env.trimeshOk with
        | false =>
          exact ⟨.importError, (fs.write env.tempStl 0).write env.tempStl n,
            by simp [freecad_body, hi, hin, hm, htm], h2 n⟩
        | true =>
          cases hl : env.loadOk n with
          | false =>
            exact ⟨.exception, (fs.write env.tempStl 0).write env.tempStl n,
              by simp [freecad_body, hi, hin, hm, htm, hl], h2 n⟩
          | true =>
            exact ⟨.exception, (fs.write env.tempStl 0).write env.tempStl n,
              by simp [freecad_body, hi, hin, hm, htm, hl, hg], h2 n⟩

theorem cadquery_body_no_target (env : CadqueryEnv) (s g : String) (fs : FS)
    (hg : env.glbExport = .raisedClean) (ht : env.tempStl ≠ g) (h0 : fs.hasFile g = false) :
    ∃ e fsE, cadquery_body env s g fs = .error (e, fsE) ∧ fsE.hasFile g = false := by
  have h1 : (fs.write env.tempStl 0).hasFile g = false :=
    FS.hasFile_write_of_not fs env.tempStl g 0 ht h0
  have h2 : ∀ n, ((fs.write env.tempStl 0).write env.tempStl n).hasFile g = false :=
    fun n => FS.hasFile_write_of_not _ env.tempStl g n ht h1
  cases hi : env.importOk with
  | false => exact ⟨.importError, fs, by simp [cadquery_body, hi], h0⟩
  | true =>
    cases hin : env.importStepOk with
    | false => exact ⟨.exception, fs.write env.tempStl 0, by simp [cadquery_body, hi, hin], h1⟩
    | true =>
      cases hm : env.exportStl with
      | error u =>
        exact ⟨.exception, fs.write env.tempStl 0, by simp [cadquery_body, hi, hin, hm], h1⟩
      | ok n =>
        cases hl : env.loadOk n with
        | false =>
          exact ⟨.exception, (fs.write env.tempStl 0).write env.tempStl n,
            by simp [cadquery_body, hi, hin, hm, hl], h2 n⟩
        | true =>
          exact ⟨.exception, (fs.write env.tempStl 0).write env.tempStl n,
            by simp [cadquery_body, hi, hin, hm, hl, hg], h2 n⟩

theorem freecad_no_target (env : FreecadEnv) (s g : String) (fs : FS) (b : Bool) (fs' : FS)
    (hg : env.glbExport = .raisedClean) (ht : env.tempStl ≠ g) (h0 : fs.hasFile g = false)
    (h : convert_step_to_glb_freecad env s g fs = .ok (b, fs')) :
    b = false ∧ fs'.hasFile g = false := by
  obtain ⟨e, fsE, hbody, hfsE⟩ := freecad_body_no_target env s g fs hg ht h0
  unfold convert_step_to_glb_freecad at h
  rw [hbody] at h
  cases e <;> simp_all [PyErr.isImportError, PyErr.isException]

theorem cadquery_no_target (env : CadqueryEnv) (s g : String) (fs : FS) (b : Bool) (fs' : FS)
    (hg : env.glbExport = .raisedClean) (ht : env.tempStl ≠ g) (h0 : fs.hasFile g = false)
    (h : convert_step_to_glb_cadquery env s g fs = .ok (b, fs')) :
    b = false ∧ fs'.hasFile g = false := by
  obtain ⟨e, fsE, hbody, hfsE⟩ := cadquery_body_no_target env s g fs hg ht h0
  unfold convert_step_to_glb_cadquery at h
  rw [hbody] at h
  cases e <;> simp_all [PyErr.isImportError, PyErr.isException]

theorem cli_loop_no_target (env : CliEnv) (g stl : String)
    (hg : ∀ i, env.glbExport i = .raisedClean) (ht : stl ≠ g) :
    ∀ (l : List Nat) (fs : FS), fs.hasFile g = false →
      (cli_loop env g stl l fs).1 = false ∧ (cli_loop env g stl l fs).2.hasFile g = false := by
  intro l
  induction l with
  | nil => intro fs h; exact ⟨rfl, h⟩
  | cons i rest ih =>
    intro fs h
    have hw : ∀ w, (optWrite fs stl w).hasFile g = false :=
      fun w => optWrite_hasFile_of_not fs stl g w ht h
    simp only [cli_loop]
    cases hr : env.run cliTimeout i with
    | notFound => exact ih fs h
    | timeout w => exact ih _ (hw w)
    | ran rc w =>
      simp only [hg i]
      split
      · split
        · exact ih _ (hw w)
        · exact ih _ (hw w)
      · exact ih _ (hw w)

theorem cli_no_target (env : CliEnv) (s g : String) (fs : FS) (b : Bool) (fs' : FS)
    (hg : ∀ i, env.glbExport i = .raisedClean) (ht : env.tempStl ≠ g)
    (hsc : env.tempScript ≠ g) (h0 : fs.hasFile g = false)
    (h : convert_step_to_glb_cli env s g fs = .ok (b, fs')) :
    b = false ∧ fs'.hasFile g = false := by
  cases hi : env.importOk with
  | false =>
    simp [convert_step_to_glb_cli, cli_body, hi, PyErr.isException] at h
    obtain ⟨hb, hfs⟩ := h
    subst hfs
    exact ⟨hb, h0⟩
  | true =>
    have h1 : ((fs.write env.tempStl 0).write env.tempScript 0).hasFile g = false :=
      FS.hasFile_write_of_not _ _ _ _ hsc (FS.hasFile_write_of_not _ _ _ _ ht h0)
    have h2 := cli_loop_no_target env g env.tempStl hg ht
      (List.range freecad_commands.length) _ h1
    simp [convert_step_to_glb_cli, cli_body, hi] at h
    obtain ⟨hb, hfs⟩ := h
    subst hb
    subst hfs
    exact ⟨h2.1, FS.hasFile_remove_of_not _ _ _ (FS.hasFile_remove_of_not _ _ _ h2.2)⟩

theorem freecad_body_ok (env : FreecadEnv) (s g : String) (fs : FS) (b : Bool) (fs' : FS)
    (h : freecad_body env s g fs = .ok (b, fs')) :
    b = true ∧ fs'.hasFile env.tempStl = false := by
  unfold freecad_body at h
  repeat' split at h
  all_goals simp_all
  all_goals obtain ⟨hb, hfs⟩ := h
  all_goals subst hfs
  all_goals exact FS.hasFile_remove_self _ _

theorem cadquery_body_ok (env : CadqueryEnv) (s g : String) (fs : FS) (b : Bool) (fs' : FS)
    (h : cadquery_body env s g fs = .ok (b, fs')) :
    b = true ∧ fs'.hasFile env.tempStl = false := by
  unfold cadquery_body at h
  repeat' split at h
  all_goals simp_all
  all_goals obtain ⟨hb, hfs⟩ := h
  all_goals subst hfs
  all_goals exact FS.hasFile_remove_self _ _

theorem freecad_success_clean (env : FreecadEnv) (s g : String) (fs fs' : FS)
    (h : convert_step_to_glb_freecad env s g fs = .ok (true, fs')) :
    fs'.hasFile env.tempStl = false := by
  unfold convert_step_to_glb_freecad at h
  cases hb : freecad_body env s g fs with
  | ok r =>
    rw [hb] at h
    simp only [Except.ok.injEq] at h
    have hr := (freecad_body_ok env s g fs r.1 r.2 (by rw [hb])).2
    rw [h] at hr
    exact hr
  | error p =>
    obtain ⟨e, f⟩ := p
    rw [hb] at h
    cases e <;> simp_all [PyErr.isImportError, PyErr.isException]

theorem cadquery_success_clean (env : CadqueryEnv) (s g : String) (fs fs' : FS)
    (h : convert_step_to_glb_cadquery env s g fs = .ok (true, fs')) :
    fs'.hasFile env.tempStl = false := by
  unfold convert_step_to_glb_cadquery at h
  cases hb : cadquery_body env s g fs with
  | ok r =>
    rw [hb] at h
    simp only [Except.ok.injEq] at h
    have hr := (cadquery_body_ok env s g fs r.1 r.2 (by rw [hb])).2
    rw [h] at hr
    exact hr
  | error p =>
    obtain ⟨e, f⟩ := p
    rw [hb] at h
    cases e <;> simp_all [PyErr.isImportError, PyErr.isException]

theorem cli_always_cleans (env : CliEnv) (s g : String) (fs : FS) (b : Bool) (fs' : FS)
    (h : convert_step_to_glb_cli env s g fs = .ok (b, fs')) :
    (fs.hasFile env.tempStl = false → fs'.hasFile env.tempStl = false) ∧
    (fs.hasFile env.tempScript = false → fs'.hasFile env.tempScript = false) := by
  cases hi : env.importOk with
  | false =>
    simp [convert_step_to_glb_cli, cli_body, hi, PyErr.isException] at h
    obtain ⟨hb, hfs⟩ := h
    subst hfs
    exact ⟨id, id⟩
  | true =>
    simp [convert_step_to_glb_cli, cli_body, hi] at h
    obtain ⟨hb, hfs⟩ := h
    subst hfs
    refine ⟨fun _ => ?_, fun _ => FS.hasFile_remove_self _ _⟩
    exact FS.hasFile_remove_of_not _ _ _ (FS.hasFile_remove_self _ _)

theorem step_main_run (env : StepEnv) (f g : String) (fs : FS)
    (b1 : Bool) (fs1 : FS) (b2 : Bool) (fs2 : FS) (b3 : Bool) (fs3 : FS)
    (hex : fs.hasFile f = true) (hxt : step_extension_ok f = true)
    (h1 : convert_step_to_glb_freecad env.fc f g fs = .ok (b1, fs1))
    (h2 : convert_step_to_glb_cadquery env.cq f g fs1 = .ok (b2, fs2))
    (h3 : convert_step_to_glb_cli env.cl f g fs2 = .ok (b3, fs3)) :
    step_main env 3 f g fs =
      if b1 then .ok (0, fs1, [Strat.freecad])
      else if b2 then .ok (0, fs2, [Strat.freecad, Strat.cadquery])
      else if b3 then .ok (0, fs3, [Strat.freecad, Strat.cadquery, Strat.cli])
      else .ok (1, fs3, [Strat.freecad, Strat.cadquery, Strat.cli]) := by
  cases b1 <;> cases b2 <;> cases b3 <;> simp [step_main, hex, hxt, h1, h2, h3]

theorem cli_loop_all_timeout (env : CliEnv) (g stl : String) (w : Option Nat)
    (hall : ∀ j, env.run cliTimeout j = .timeout w) :
    ∀ (l : List Nat) (fs : FS), (cli_loop env g stl l fs).1 = false := by
  intro l
  induction l with
  | nil => intro fs; rfl
  | cons i rest ih =>
    intro fs
    simp only [cli_loop, hall i]
    exact ih _

/-- Environment in which the in-process FreeCAD strategy fully succeeds:
the mesh export writes a 7-byte STL and the GLB export writes 9 bytes. -/
def fcOkEnv : FreecadEnv :=
  { importOk := true, tempStl := "t.stl", insertOk := true, meshExport := .ok 7,
    trimeshOk := true, loadOk := fun _ => true, glbExport := .ok 9 }

/-- Environment in which FreeCAD imports but `Import.insert` raises. -/
def fcInsertFailEnv : FreecadEnv :=
  { importOk := true, tempStl := "t.stl", insertOk := false, meshExport := .ok 7,
    trimeshOk := true, loadOk := fun _ => true, glbExport := .ok 9 }

/-- Environment in which `Mesh.export` writes a zero-byte STL and every later
step succeeds on it anyway. -/
def fcZeroEnv : FreecadEnv :=
  { importOk := true, tempStl := "t.stl", insertOk := true, meshExport := .ok 0,
    trimeshOk := true, loadOk := fun _ => true, glbExport := .ok 3 }

/-- Environment in which the FreeCAD strategy's GLB export raises after
writing 4 bytes at the target path. -/
def fcResidueEnv : FreecadEnv :=
  { importOk := true, tempStl := "t.stl", insertOk := true, meshExport := .ok 7,
    trimeshOk := true, loadOk := fun _ => true, glbExport := .raisedAfterWrite 4 }

/-- Environment in which the FreeCAD strategy's GLB export raises without
creating the target file. -/
def fcCleanFailEnv : FreecadEnv :=
  { importOk := true, tempStl := "t.stl", insertOk := true, meshExport := .ok 7,
    trimeshOk := true, loadOk := fun _ => true, glbExport := .raisedClean }

/-- Environment in which CadQuery is not installed. -/
def cqOffEnv : CadqueryEnv :=
  { importOk := false, tempStl := "u.stl", importStepOk := true, exportStl := .ok 1,
    loadOk := fun _ => true, glbExport := .raisedClean }

/-- Environment in which the CadQuery strategy fully succeeds. -/
def cqOkEnv : CadqueryEnv :=
  { importOk := true, tempStl := "u.stl", importStepOk := true, exportStl := .ok 6,
    loadOk := fun _ => true, glbExport := .ok 8 }

/-- Environment in which the CLI strategy's imports fail. -/
def clOffEnv : CliEnv :=
  { importOk := false, tempStl := "v.stl", tempScript := "v.py",
    run := fun _ _ => .notFound, loadOk := fun _ _ => true,
    glbExport := fun _ => .raisedClean }

/-- Environment in which every subprocess invocation times out. -/
def clTimeoutEnv : CliEnv :=
  { importOk := true, tempStl := "v.stl", tempScript := "v.py",
    run := fun _ _ => .timeout none, loadOk := fun _ _ => true,
    glbExport := fun _ => .ok 5 }

/-- Environment in which every subprocess completes with exit code 0 but
writes nothing to the STL path. -/
def clRanEmptyEnv : CliEnv :=
  { importOk := true, tempStl := "v.stl", tempScript := "v.py",
    run := fun _ _ => .ran 0 none, loadOk := fun _ _ => true,
    glbExport := fun _ => .ok 5 }

/-- Request environment: FreeCAD succeeds, the other backends are absent. -/
def envFcWins : StepEnv := { fc := fcOkEnv, cq := cqOffEnv, cl := clOffEnv }

/-- Request environment: FreeCAD's GLB export fails after a half-written
target, the other backends are absent. -/
def envResidue : StepEnv := { fc := fcResidueEnv, cq := cqOffEnv, cl := clOffEnv }

/-- Request environment: every strategy fails and no export writes. -/
def envAllClean : StepEnv := { fc := fcCleanFailEnv, cq := cqOffEnv, cl := clOffEnv }

/-- Environment in which trimesh is not installed. -/
def stlOffEnv : StlEnv := { trimeshOk := false, loadOk := true, glbExport := .ok 2 }

/-- C1: for every STEP→GLB request that passes input validation, the
orchestrator attempts the strategies in the fixed order FreeCAD import,
CadQuery, FreeCAD command line, and stops at the first success: if the
FreeCAD strategy succeeds only it is attempted; if it fails and CadQuery
succeeds exactly those two run, in that order; only when both fail is the
CLI strategy attempted, and no strategy runs after a success. -/
theorem step_main_first_success_wins (env : StepEnv) (f g : String) (fs : FS)
    (hex : fs.hasFile f = true) (hxt : step_extension_ok f = true) :
    (∀ fs1, convert_step_to_glb_freecad env.fc f g fs = .ok (true, fs1) →
      step_main env 3 f g fs = .ok (0, fs1, [Strat.freecad])) ∧
    (∀ fs1 fs2, convert_step_to_glb_freecad env.fc f g fs = .ok (false, fs1) →
      convert_step_to_glb_cadquery env.cq f g fs1 = .ok (true, fs2) →
      step_main env 3 f g fs = .ok (0, fs2, [Strat.freecad, Strat.cadquery])) ∧
    (∀ fs1 fs2 b fs3, convert_step_to_glb_freecad env.fc f g fs = .ok (false, fs1) →
      convert_step_to_glb_cadquery env.cq f g fs1 = .ok (false, fs2) →
      convert_step_to_glb_cli env.cl f g fs2 = .ok (b, fs3) →
      step_main env 3 f g fs = .ok (if b then 0 else 1, fs3,
        [Strat.freecad, Strat.cadquery, Strat.cli])) := by
  refine ⟨?_, ?_, ?_⟩
  · intro fs1 h1
    simp [step_main, hex, hxt, h1]
  · intro fs1 fs2 h1 h2
    simp [step_main, hex, hxt, h1, h2]
  · intro fs1 fs2 b fs3 h1 h2 h3
    cases b <;> simp [step_main, hex, hxt, h1, h2, h3]

/-- Witness for C1: a concrete request on which the FreeCAD strategy
succeeds and the trace is exactly the FreeCAD strategy. -/
theorem step_main_first_success_wins_witness :
    step_extension_ok "a.step" = true ∧
    step_main envFcWins 3 "a.step" "out.glb" [("a.step", 5)]
      = .ok (0, [("out.glb", 9), ("a.step", 5)], [Strat.freecad]) := by
  refine ⟨by decide, ?_⟩
  exact (step_main_first_success_wins envFcWins "a.step" "out.glb" [("a.step", 5)]
    (by decide) (by decide)).1 [("out.glb", 9), ("a.step", 5)] (by rfl)

/-- C6: for every input path missing from the filesystem, both converters
return exit code 1 with the filesystem unchanged, before any strategy or
backend runs — in particular no output file is created. -/
theorem missing_input_rejected (envS : StepEnv) (envL : StlEnv) (f g : String) (fs : FS)
    (h : fs.hasFile f = false) :
    step_main envS 3 f g fs = .ok (1, fs, []) ∧
    stl_main envL 3 f g fs = .ok (1, fs, false) := by
  constructor <;> simp [step_main, stl_main, h]

/-- Witness for C6 at a concrete missing input. -/
theorem missing_input_rejected_witness :
    FS.hasFile [] "missing.step" = false ∧
    step_main envFcWins 3 "missing.step" "out.glb" [] = .ok (1, [], []) ∧
    stl_main stlOffEnv 3 "missing.step" "out.glb" [] = .ok (1, [], false) := by
  refine ⟨by decide, ?_⟩
  exact missing_input_rejected envFcWins stlOffEnv "missing.step" "out.glb" [] (by decide)

theorem step_main_trace_shapes (env : StepEnv) (argc : Nat) (f g : String) (fs : FS)
    (c : Nat) (fs' : FS) (tr : List Strat)
    (h : step_main env argc f g fs = .ok (c, fs', tr)) :
    tr = [] ∨ tr = [Strat.freecad] ∨ tr = [Strat.freecad, Strat.cadquery] ∨
      tr = [Strat.freecad, Strat.cadquery, Strat.cli] := by
  unfold step_main at h
  repeat' split at h
  all_goals simp_all

/-- C8: within a single request, the orchestrator invokes each strategy at
most once — the invocation trace of `main` never repeats a strategy, so a
failed strategy is never retried. -/
theorem step_main_no_retry (env : StepEnv) (argc : Nat) (f g : String) (fs : FS)
    (c : Nat) (fs' : FS) (tr : List Strat)
    (h : step_main env argc f g fs = .ok (c, fs', tr)) :
    ∀ s, tr.count s ≤ 1 := by
  intro s
  rcases step_main_trace_shapes env argc f g fs c fs' tr h with h4 | h4 | h4 | h4 <;>
    subst h4 <;> cases s <;> decide

/-- Witness for C8 at a concrete request. -/
theorem step_main_no_retry_witness :
    step_main envFcWins 3 "a.step" "out.glb" [("a.step", 5)]
      = .ok (0, [("out.glb", 9), ("a.step", 5)], [Strat.freecad]) ∧
    ∀ s, ([Strat.freecad] : List Strat).count s ≤ 1 := by
  refine ⟨by rfl, ?_⟩
  exact step_main_no_retry envFcWins 3 "a.step" "out.glb" [("a.step", 5)] 0
    [("out.glb", 9), ("a.step", 5)] [Strat.freecad] (by rfl)

/-- C9: the three STEP strategy functions and the STL conversion function
return a boolean on every input and environment and never propagate an
exception to the caller: every modelled error class raised inside them is
caught by their handlers. -/
theorem converters_never_raise :
    (∀ (env : FreecadEnv) (s g : String) (fs : FS),
      ∃ b fs', convert_step_to_glb_freecad env s g fs = .ok (b, fs')) ∧
    (∀ (env : CadqueryEnv) (s g : String) (fs : FS),
      ∃ b fs', convert_step_to_glb_cadquery env s g fs = .ok (b, fs')) ∧
    (∀ (env : CliEnv) (s g : String) (fs : FS),
      ∃ b fs', convert_step_to_glb_cli env s g fs = .ok (b, fs')) ∧
    (∀ (env : StlEnv) (s g : String) (fs : FS),
      ∃ b fs', convert_stl_to_glb env s g fs = .ok (b, fs')) :=
  ⟨convert_freecad_returns, convert_cadquery_returns, convert_cli_returns,
   convert_stl_returns⟩

/-- C10: the STEP extension check is case-insensitive: any existing input
whose lower-cased name ends in `.step` or `.stp` passes validation and the
strategy chain is attempted — the invocation trace is non-empty and starts
with the FreeCAD strategy. -/
theorem step_extension_case_insensitive (env : StepEnv) (f g : String) (fs : FS)
    (hex : fs.hasFile f = true) (hxt : step_extension_ok f = true) :
    ∃ c fs' tr, step_main env 3 f g fs = .ok (c, fs', tr) ∧ tr ≠ [] ∧
      Strat.freecad ∈ tr := by
  obtain ⟨b1, fs1, h1⟩ := convert_freecad_returns env.fc f g fs
  cases b1 with
  | true =>
    exact ⟨0, fs1, [Strat.freecad], by simp [step_main, hex, hxt, h1], by simp, by simp⟩
  | false =>
    obtain ⟨b2, fs2, h2⟩ := convert_cadquery_returns env.cq f g fs1
    cases b2 with
    | true =>
      exact ⟨0, fs2, [Strat.freecad, Strat.cadquery],
        by simp [step_main, hex, hxt, h1, h2], by simp, by simp⟩
    | false =>
      obtain ⟨b3, fs3, h3⟩ := convert_cli_returns env.cl f g fs2
      cases b3 with
      | true =>
        exact ⟨0, fs3, [Strat.freecad, Strat.cadquery, Strat.cli],
          by simp [step_main, hex, hxt, h1, h2, h3], by simp, by simp⟩
      | false =>
        exact ⟨1, fs3, [Strat.freecad, Strat.cadquery, Strat.cli],
          by simp [step_main, hex, hxt, h1, h2, h3], by simp, by simp⟩

/-- Witness for C10: an upper-case `.STEP` input passes validation and the
chain runs. -/
theorem step_extension_case_insensitive_witness :
    step_extension_ok "MODEL.STEP" = true ∧
    (∃ c fs' tr, step_main envFcWins 3 "MODEL.STEP" "out.glb" [("MODEL.STEP", 5)]
      = .ok (c, fs', tr) ∧ tr ≠ [] ∧ Strat.freecad ∈ tr) :=
  ⟨by decide, step_extension_case_insensitive envFcWins "MODEL.STEP" "out.glb"
    [("MODEL.STEP", 5)] (by decide) (by decide)⟩

/-- C7: the CLI strategy runs every subprocess invocation under the
120-second budget (`cliTimeout = 120` is the budget passed to every
`subprocess.run` call); an invocation whose timeout expires is treated as a
failure for that command and the loop continues with the next command, and
even when every invocation times out the strategy still returns `False`
normally instead of propagating, so the request is not aborted. -/
theorem cli_timeout_is_soft (env : CliEnv) (g stl : String) (i : Nat) (rest : List Nat)
    (fs : FS) (w : Option Nat) (hr : env.run cliTimeout i = .timeout w) :
    cliTimeout = 120 ∧
    cli_loop env g stl (i :: rest) fs = cli_loop env g stl rest (optWrite fs stl w) ∧
    ((∀ j, env.run cliTimeout j = .timeout w) →
      ∀ (s g2 : String) (fs2 : FS), ∃ fs',
        convert_step_to_glb_cli env s g2 fs2 = .ok (false, fs')) := by
  refine ⟨rfl, by simp only [cli_loop, hr], ?_⟩
  intro hall s g2 fs2
  cases hi : env.importOk with
  | false =>
    exact ⟨fs2, by simp [convert_step_to_glb_cli, cli_body, hi, PyErr.isException]⟩
  | true =>
    have hl := cli_loop_all_timeout env g2 env.tempStl w hall
      (List.range freecad_commands.length)
      ((fs2.write env.tempStl 0).write env.tempScript 0)
    refine ⟨(((cli_loop env g2 env.tempStl (List.range freecad_commands.length)
      ((fs2.write env.tempStl 0).write env.tempScript 0)).2.remove
        env.tempStl).remove env.tempScript), ?_⟩
    simp [convert_step_to_glb_cli, cli_body, hi, hl]

/-- Witness for C7 at a concrete environment in which every invocation
times out. -/
theorem cli_timeout_is_soft_witness :
    clTimeoutEnv.run cliTimeout 0 = CmdOut.timeout none ∧
    (cliTimeout = 120 ∧
     cli_loop clTimeoutEnv "out.glb" "v.stl" [0, 1, 2, 3] [] =
       cli_loop clTimeoutEnv "out.glb" "v.stl" [1, 2, 3] (optWrite [] "v.stl" none) ∧
     ((∀ j, clTimeoutEnv.run cliTimeout j = .timeout none) →
       ∀ (s g2 : String) (fs2 : FS), ∃ fs',
         convert_step_to_glb_cli clTimeoutEnv s g2 fs2 = .ok (false, fs'))) :=
  ⟨rfl, cli_timeout_is_soft clTimeoutEnv "out.glb" "v.stl" 0 [1, 2, 3] [] none rfl⟩

/-- C2 counterexample: with FreeCAD importable but `Import.insert` raising,
the FreeCAD strategy fails after creating its temp STL and returns `False`
with the temp file still on disk — a failed strategy does leave a residual
temp file. -/
theorem freecad_failure_leaves_temp :
    convert_step_to_glb_freecad fcInsertFailEnv "a.step" "out.glb" [("a.step", 5)]
      = .ok (false, [("t.stl", 0), ("a.step", 5)]) ∧
    FS.hasFile [("t.stl", 0), ("a.step", 5)] "t.stl" = true :=
  ⟨by rfl, by decide⟩

/-- C2 amended: the CLI strategy removes its temp STL and temp script on
every outcome (a temp file absent before the call is absent after it), and
the FreeCAD and CadQuery strategies remove their temp STL on the success
path; a failure of those two strategies after temp creation leaves the
temp file behind. -/
theorem temp_cleanup_on_success_and_cli (envC : CliEnv) (envF : FreecadEnv)
    (envQ : CadqueryEnv) (s g : String) (fs : FS) :
    (∀ b fs', convert_step_to_glb_cli envC s g fs = .ok (b, fs') →
      (fs.hasFile envC.tempStl = false → fs'.hasFile envC.tempStl = false) ∧
      (fs.hasFile envC.tempScript = false → fs'.hasFile envC.tempScript = false)) ∧
    (∀ fs', convert_step_to_glb_freecad envF s g fs = .ok (true, fs') →
      fs'.hasFile envF.tempStl = false) ∧
    (∀ fs', convert_step_to_glb_cadquery envQ s g fs = .ok (true, fs') →
      fs'.hasFile envQ.tempStl = false) :=
  ⟨fun b fs' h => cli_always_cleans envC s g fs b fs' h,
   fun fs' h => freecad_success_clean envF s g fs fs' h,
   fun fs' h => cadquery_success_clean envQ s g fs fs' h⟩

/-- Witness for the amended C2: a successful FreeCAD run leaves no temp
STL behind. -/
theorem temp_cleanup_on_success_and_cli_witness :
    convert_step_to_glb_freecad fcOkEnv "a.step" "out.glb" [("a.step", 5)]
      = .ok (true, [("out.glb", 9), ("a.step", 5)]) ∧
    FS.hasFile [("out.glb", 9), ("a.step", 5)] "t.stl" = false := by
  refine ⟨by rfl, ?_⟩
  exact (temp_cleanup_on_success_and_cli clOffEnv fcOkEnv cqOkEnv "a.step" "out.glb"
    [("a.step", 5)]).2.1 [("out.glb", 9), ("a.step", 5)] (by rfl)

/-- C3 counterexample: the FreeCAD strategy's GLB export raises after
writing 4 bytes at the target path, every strategy then fails, the request
exits 1 — and the half-written target file is still there. -/
theorem all_fail_leaves_target_file :
    step_main envResidue 3 "a.step" "out.glb" [("a.step", 5)]
      = .ok (1, [("out.glb", 4), ("t.stl", 7), ("a.step", 5)],
             [Strat.freecad, Strat.cadquery, Strat.cli]) ∧
    FS.hasFile [("out.glb", 4), ("t.stl", 7), ("a.step", 5)] "out.glb" = true :=
  ⟨by rfl, by decide⟩

/-- C3 amended: the orchestrator never deletes the target path, so after a
fully failed request a file sits at the target iff a failed export attempt
wrote it (or it already existed); in particular when no export attempt
writes the target — every strategy's GLB-export oracle raises cleanly — a
failed request leaves no file at the target path. -/
theorem all_fail_no_target_without_export_write (env : StepEnv) (f g : String) (fs : FS)
    (h0 : fs.hasFile g = false)
    (hfc : env.fc.glbExport = .raisedClean) (hcq : env.cq.glbExport = .raisedClean)
    (hcl : ∀ i, env.cl.glbExport i = .raisedClean)
    (htf : env.fc.tempStl ≠ g) (htq : env.cq.tempStl ≠ g)
    (hts : env.cl.tempStl ≠ g) (hsc : env.cl.tempScript ≠ g)
    (c : Nat) (fs' : FS) (tr : List Strat)
    (h : step_main env 3 f g fs = .ok (c, fs', tr)) :
    c = 1 ∧ fs'.hasFile g = false := by
  by_cases hex : fs.hasFile f = true
  · by_cases hxt : step_extension_ok f = true
    · obtain ⟨b1, fs1, h1⟩ := convert_freecad_returns env.fc f g fs
      obtain ⟨hb1, hg1⟩ := freecad_no_target env.fc f g fs b1 fs1 hfc htf h0 h1
      subst hb1
      obtain ⟨b2, fs2, h2⟩ := convert_cadquery_returns env.cq f g fs1
      obtain ⟨hb2, hg2⟩ := cadquery_no_target env.cq f g fs1 b2 fs2 hcq htq hg1 h2
      subst hb2
      obtain ⟨b3, fs3, h3⟩ := convert_cli_returns env.cl f g fs2
      obtain ⟨hb3, hg3⟩ := cli_no_target env.cl f g fs2 b3 fs3 hcl hts hsc hg2 h3
      subst hb3
      have hrun := step_main_run env f g fs false fs1 false fs2 false fs3 hex hxt h1 h2 h3
      rw [hrun] at h
      simp only [if_false, ite_false, Bool.false_eq_true, Except.ok.injEq,
        Prod.mk.injEq] at h
      obtain ⟨hc, hfs, -⟩ := h
      exact ⟨hc.symm, hfs ▸ hg3⟩
    · have hv : step_main env 3 f g fs = .ok (1, fs, []) := by
        simp [step_main, hex, hxt]
      rw [hv] at h
      simp only [Except.ok.injEq, Prod.mk.injEq] at h
      obtain ⟨hc, hfs, -⟩ := h
      exact ⟨hc.symm, hfs ▸ h0⟩
  · have hv : step_main env 3 f g fs = .ok (1, fs, []) := by
      simp [step_main, hex]
    rw [hv] at h
    simp only [Except.ok.injEq, Prod.mk.injEq] at h
    obtain ⟨hc, hfs, -⟩ := h
    exact ⟨hc.symm, hfs ▸ h0⟩

/-- Witness for the amended C3 at a concrete all-fail run with clean
exports. -/
theorem all_fail_no_target_without_export_write_witness :
    (1 : Nat) = 1 ∧ FS.hasFile [("t.stl", 7), ("a.step", 5)] "out.glb" = false :=
  all_fail_no_target_without_export_write envAllClean "a.step" "out.glb" [("a.step", 5)]
    (by decide) rfl rfl (fun _ => rfl) (by decide) (by decide) (by decide) (by decide)
    1 [("t.stl", 7), ("a.step", 5)] [Strat.freecad, Strat.cadquery, Strat.cli] (by rfl)

/-- C4 counterexample: the STL converter performs no extension validation:
for an existing input named `model.txt` — whose extension is not `.stl` —
the backend `convert_stl_to_glb` is invoked anyway (invocation flag
`true`). -/
theorem stl_main_skips_extension_validation :
    pyEndsWith (pyLower "model.txt") ".stl" = false ∧
    stl_main stlOffEnv 3 "model.txt" "out.glb" [("model.txt", 9)]
      = .ok (1, [("model.txt", 9)], true) :=
  ⟨by decide, by rfl⟩

/-- C4 amended: only the STEP converter validates the input extension — it
exits 1 before invoking any strategy when the lower-cased name does not end
in `.step`/`.stp` — while the STL converter invokes its backend for every
existing input path, regardless of extension. -/
theorem extension_check_rejects_step_only (envS : StepEnv) (envL : StlEnv)
    (f g f2 g2 : String) (fs fs2 : FS)
    (hex : fs.hasFile f = true) (hbad : step_extension_ok f = false)
    (hex2 : fs2.hasFile f2 = true) :
    step_main envS 3 f g fs = .ok (1, fs, []) ∧
    ∃ c fs', stl_main envL 3 f2 g2 fs2 = .ok (c, fs', true) := by
  constructor
  · simp [step_main, hex, hbad]
  · obtain ⟨b, fs', hb⟩ := convert_stl_returns envL f2 g2 fs2
    cases b with
    | true => exact ⟨0, fs', by simp [stl_main, hex2, hb]⟩
    | false => exact ⟨1, fs', by simp [stl_main, hex2, hb]⟩

/-- Witness for the amended C4 at concrete inputs. -/
theorem extension_check_rejects_step_only_witness :
    step_extension_ok "a.txt" = false ∧
    step_main envFcWins 3 "a.txt" "out.glb" [("a.txt", 2)] = .ok (1, [("a.txt", 2)], []) ∧
    (∃ c fs', stl_main stlOffEnv 3 "model.stl" "out.glb" [("model.stl", 3)]
      = .ok (c, fs', true)) := by
  refine ⟨by decide, ?_⟩
  exact extension_check_rejects_step_only envFcWins stlOffEnv "a.txt" "out.glb"
    "model.stl" "out.glb" [("a.txt", 2)] [("model.stl", 3)]
    (by decide) (by decide) (by decide)

/-- C5 counterexample: the FreeCAD strategy performs no artifact-emptiness
validation: with `Mesh.export` producing a zero-byte STL and the mesh
library accepting it, the strategy returns success — an empty intermediate
artifact is not treated as failure. -/
theorem freecad_succeeds_on_empty_artifact :
    fcZeroEnv.meshExport = .ok 0 ∧
    convert_step_to_glb_freecad fcZeroEnv "a.step" "out.glb" [("a.step", 5)]
      = .ok (true, [("out.glb", 3), ("a.step", 5)]) :=
  ⟨rfl, by rfl⟩

/-- C5 amended: only the CLI strategy validates artifact non-emptiness
before export — a completed subprocess whose STL artifact has size zero (in
particular, is missing) is treated as a failed attempt and the command loop
moves on without attempting the export; the in-process FreeCAD and
CadQuery strategies perform no such check. -/
theorem cli_validates_artifact (env : CliEnv) (g stl : String) (i : Nat)
    (rest : List Nat) (fs : FS) (rc : Int) (w : Option Nat)
    (hr : env.run cliTimeout i = .ran rc w)
    (hz : (optWrite fs stl w).getsize stl = 0) :
    cli_loop env g stl (i :: rest) fs = cli_loop env g stl rest (optWrite fs stl w) := by
  simp only [cli_loop, hr]
  have hzd : decide (0 < (optWrite fs stl w).getsize stl) = false := by simp [hz]
  simp [hzd]

/-- Witness for the amended C5: a subprocess that exits 0 without writing
the STL does not make the attempt succeed; the loop moves on. -/
theorem cli_validates_artifact_witness :
    clRanEmptyEnv.run cliTimeout 0 = CmdOut.ran 0 none ∧
    cli_loop clRanEmptyEnv "out.glb" "v.stl" [0] [] =
      cli_loop clRanEmptyEnv "out.glb" "v.stl" [] (optWrite [] "v.stl" none) :=
  ⟨rfl, cli_validates_artifact clRanEmptyEnv "out.glb" "v.stl" 0 [] [] 0 none rfl (by rfl)⟩
